import Mathlib

/-!
Shallow embedding of the IoT telemetry backend (`app/` of the repository).

Modelling conventions:
* Timestamps are seconds since the epoch, as `Int`.  `date_trunc` on a stored
  timestamp becomes flooring division by the bucket width, which agrees with
  calendar truncation for the stored (single-zone) timestamps.
* Numeric sensor channels are `ℚ`; the claims under scrutiny only involve
  exact comparisons and arithmetic means, never float rounding.
* A SQLAlchemy session is a `DB` value; a request handler is a function
  `DB → ... → DB × Except ApiError α`.  An error outcome returns the input
  `DB`, mirroring the fact that the per-request transaction is only committed
  on the success path and is discarded when the handler raises.
* `NULL`-able columns are `Option` fields; SQL `avg` ignores `NULL`s and is
  `NULL` on an empty set of values, as in `sql_avg` below.
-/

/-- `users` table (`app/models/models.py`, `DBUser`). -/
structure DBUser where
  id : String
  username : String
  email : String
  full_name : Option String
  hashed_password : String
  disabled : Bool
deriving DecidableEq

/-- `servers` table (`app/models/models.py`, `DBServer`).  `last_seen` is a
nullable timestamp column. -/
structure DBServer where
  server_ulid : String
  server_name : String
  owner_id : String
  last_seen : Option Int
deriving DecidableEq

/-- `sensor_data` table (`app/models/models.py`, `DBSensorData`).  The four
channel columns are nullable. -/
structure DBSensorData where
  id : String
  server_ulid : String
  timestamp : Int
  temperature : Option ℚ
  humidity : Option ℚ
  voltage : Option ℚ
  current : Option ℚ
deriving DecidableEq

/-- The relational store: the three tables, each as a list of rows in
insertion order. -/
structure DB where
  users : List DBUser
  servers : List DBServer
  sensor_data : List DBSensorData
deriving DecidableEq

/-- Outcomes a handler can raise: an explicit `HTTPException(code, detail)`,
or a database integrity error (violated unique/primary-key constraint)
surfacing at commit time, which the framework turns into a server error. -/
inductive ApiError where
  | http (code : Nat) (detail : String)
  | integrity (constraint : String)
deriving DecidableEq

/-- `True` exactly for errors surfaced to the client as a 4xx response;
an `integrity` error escapes the handler and becomes a 5xx server error. -/
def ApiError.isClientError : ApiError → Bool
  | .http code _ => 400 ≤ code && code < 500
  | .integrity _ => false

/-- Whether a handler outcome is a client (4xx) error. -/
def exceptIsClientError {α : Type} : Except ApiError α → Bool
  | .error e => e.isClientError
  | .ok _ => false

/-- Models the Python expression `str(ulid)` as written in
`app/api/servers.py`, `app/api/sensor_data.py` and `app/api/auth.py`:
`ulid` is the imported function object and is never called, so `str(ulid)`
is the function's `repr` — one fixed string for the lifetime of the
process, not a fresh identifier. -/
def strUlid : String := "<function ulid>"

/-! ## Health endpoints (`app/api/servers.py`) -/

/-- Response shape of `ServerResponse` (`app/schemas/schemas.py`). -/
structure ServerResponse where
  server_ulid : String
  server_name : String
  status : String
deriving DecidableEq

/-- Status computation of `get_server_health` (`app/api/servers.py` lines
79-84): start from `"online"`, switch to `"offline"` when `last_seen` is
`NULL` or strictly older than `now - 10` seconds. -/
def single_server_status (last_seen : Option Int) (now : Int) : String :=
  match last_seen with
  | none => "offline"
  | some t => if t < now - 10 then "offline" else "online"

/-- Status computation of `get_all_servers_health` (`app/api/servers.py`
line 52): `"online" if server.last_seen and server.last_seen >= time_threshold
else "offline"` (a `datetime` value is always truthy, so the first conjunct is
exactly a `NULL` test). -/
def all_servers_status (last_seen : Option Int) (now : Int) : String :=
  match last_seen with
  | none => "offline"
  | some t => if now - 10 ≤ t then "online" else "offline"

/-- `GET /health/all` (`app/api/servers.py`, `get_all_servers_health`):
one `ServerResponse` per server owned by the caller. -/
def get_all_servers_health (db : DB) (user_id : String) (now : Int) :
    List ServerResponse :=
  (db.servers.filter (fun s => s.owner_id == user_id)).map
    (fun s => ⟨s.server_ulid, s.server_name, all_servers_status s.last_seen now⟩)

/-- `GET /health/{server_ulid}` (`app/api/servers.py`, `get_server_health`):
the first server matching both the identifier and the caller's ownership,
404 otherwise. -/
def get_server_health (db : DB) (user_id : String) (server_ulid : String)
    (now : Int) : Except ApiError ServerResponse :=
  match db.servers.find?
      (fun s => s.server_ulid == server_ulid && s.owner_id == user_id) with
  | none => .error (.http 404 "Server not found")
  | some s => .ok ⟨s.server_ulid, s.server_name, single_server_status s.last_seen now⟩

/-- `POST /servers` (`app/api/servers.py`, `create_server`): the identifier is
`str(ulid)`, the owner is the caller, `last_seen` is the registration time.
The insert violates the `servers` primary key when a row with the same
identifier already exists. -/
def create_server (db : DB) (current_user : DBUser) (server_name : String)
    (now : Int) : DB × Except ApiError ServerResponse :=
  let sid := strUlid
  if db.servers.any (fun s => s.server_ulid == sid) then
    (db, .error (.integrity "servers_pkey"))
  else
    ({ db with servers :=
        db.servers ++ [⟨sid, server_name, current_user.id, some now⟩] },
     .ok ⟨sid, server_name, "online"⟩)

/-! ## Ingestion (`app/api/sensor_data.py`, `post_sensor_data`) -/

/-- The validated request body of `POST /data` (`SensorDataPost` in
`app/schemas/schemas.py`) as the handler receives it: the timestamp has
already been parsed. -/
structure SensorDataPost where
  server_ulid : String
  timestamp : Int
  temperature : Option ℚ
  humidity : Option ℚ
  voltage : Option ℚ
  current : Option ℚ
deriving DecidableEq

/-- Update `last_seen` on the first server row matching the identifier, as
`query(...).first()` followed by an attribute assignment does. -/
def set_last_seen_first : List DBServer → String → Int → List DBServer
  | [], _, _ => []
  | s :: rest, u, now =>
    if s.server_ulid == u then { s with last_seen := some now } :: rest
    else s :: set_last_seen_first rest u now

/-- `POST /data`: 404 when no server carries the given identifier; otherwise
refresh that server's `last_seen` to the server clock and insert the reading
with primary key `str(ulid)`.  The commit fails with an integrity error when
a reading row with that key already exists, in which case the whole
transaction (including the `last_seen` refresh) is discarded. -/
def post_sensor_data (db : DB) (data : SensorDataPost) (now : Int) :
    DB × Except ApiError String :=
  match db.servers.find? (fun s => s.server_ulid == data.server_ulid) with
  | none => (db, .error (.http 404 "Server not found"))
  | some _ =>
    let rid := strUlid
    if db.sensor_data.any (fun r => r.id == rid) then
      (db, .error (.integrity "sensor_data_pkey"))
    else
      ({ db with
          servers := set_last_seen_first db.servers data.server_ulid now,
          sensor_data := db.sensor_data ++
            [⟨rid, data.server_ulid, data.timestamp, data.temperature,
              data.humidity, data.voltage, data.current⟩] },
       .ok "Data recorded successfully")

/-! ## Payload validation (`app/schemas/schemas.py`, `SensorDataPost`) -/

/-- The inbound `POST /data` body before validation.  `timestamp = none`
models a timestamp string that cannot be parsed as ISO 8601. -/
structure SensorDataIn where
  server_ulid : String
  timestamp : Option Int
  temperature : Option ℚ
  humidity : Option ℚ
  voltage : Option ℚ
  current : Option ℚ
deriving DecidableEq

/-- `check_humidity_range`: a present humidity outside `[0, 100]` is an
error. -/
def humidity_out_of_range (v : Option ℚ) : Bool :=
  match v with
  | some x => decide (x < 0) || decide (x > 100)
  | none => false

/-- Field-by-field validation of the ingestion payload, mirroring how
pydantic executes the validators declared on `SensorDataPost`: fields are
validated in declaration order (`server_ulid`, `timestamp`, `temperature`,
`humidity`, `voltage`, `current`); `info.data` holds only the fields already
validated successfully (a failed field is not added, and reads of not yet
validated fields yield `None`); `validate_default=True` makes the channel
validators run for absent channels too; for `humidity` the range validator
runs first and on failure the cross-field validator is skipped.  Returns the
list of validation error messages, empty exactly when the payload is
accepted. -/
def sensor_data_validation_errors (p : SensorDataIn) : List String :=
  let ts_errs := match p.timestamp with
    | none => ["Timestamp must be in ISO 8601 format"]
    | some _ => []
  let temp_err := p.temperature.isNone
  let temp_errs :=
    if temp_err then ["At least one sensor value must be provided"] else []
  let data_temperature := if temp_err then none else p.temperature
  let hum_range_err := humidity_out_of_range p.humidity
  let hum_least_err := !hum_range_err && p.humidity.isNone && data_temperature.isNone
  let hum_errs :=
    (if hum_range_err then ["Humidity must be between 0 and 100"] else []) ++
      (if hum_least_err then ["At least one sensor value must be provided"] else [])
  let data_humidity := if hum_range_err || hum_least_err then none else p.humidity
  let volt_err := p.voltage.isNone && data_temperature.isNone && data_humidity.isNone
  let volt_errs :=
    if volt_err then ["At least one sensor value must be provided"] else []
  let data_voltage := if volt_err then none else p.voltage
  let curr_err := p.current.isNone && data_temperature.isNone &&
    data_humidity.isNone && data_voltage.isNone
  let curr_errs :=
    if curr_err then ["At least one sensor value must be provided"] else []
  ts_errs ++ temp_errs ++ hum_errs ++ volt_errs ++ curr_errs

/-! ## Registration (`app/api/auth.py`, `register_user`) -/

/-- Request body of `POST /auth/register` (`UserCreate`). -/
structure UserCreate where
  username : String
  email : String
  full_name : Option String
  password : String
deriving DecidableEq

/-- Modelled from the spec: `get_user` lives in `app/security/auth.py`, which
is not among the sources; per the spec the identity store has unique
usernames and is accessed by lookup, so `get_user` returns the stored user
with the given username, if any. -/
def get_user (db : DB) (username : String) : Option DBUser :=
  db.users.find? (fun u => u.username == username)

/-- `POST /auth/register`: an explicit 400 when the username is taken;
otherwise insert with `id = str(ulid)` and `disabled` defaulting to false.
The insert violates a unique constraint (`id` primary key, `username`,
`email`) when a stored row already carries the value, surfacing as an
integrity error at commit.  `hash` stands for `get_password_hash`. -/
def register_user (db : DB) (user : UserCreate) (hash : String → String) :
    DB × Except ApiError DBUser :=
  match get_user db user.username with
  | some _ => (db, .error (.http 400 "Username already registered"))
  | none =>
    let uid := strUlid
    if db.users.any (fun u => u.id == uid) then
      (db, .error (.integrity "users_pkey"))
    else if db.users.any (fun u => u.username == user.username) then
      (db, .error (.integrity "users_username_key"))
    else if db.users.any (fun u => u.email == user.email) then
      (db, .error (.integrity "users_email_key"))
    else
      ({ db with users := db.users ++
          [⟨uid, user.username, user.email, user.full_name,
            hash user.password, false⟩] },
       .ok ⟨uid, user.username, user.email, user.full_name,
            hash user.password, false⟩)

/-! ## Query endpoint (`app/api/sensor_data.py`, `get_sensor_data`) -/

/-- The four recognized values of the `sensor_type` query parameter. -/
inductive SensorType where
  | temperature
  | humidity
  | voltage
  | current
deriving DecidableEq

/-- The three recognized values of the `aggregation` query parameter. -/
inductive Aggregation where
  | minute
  | hour
  | day
deriving DecidableEq

/-- Reading of the column a `sensor_type` value names. -/
def SensorType.get : SensorType → DBSensorData → Option ℚ
  | .temperature, r => r.temperature
  | .humidity, r => r.humidity
  | .voltage, r => r.voltage
  | .current, r => r.current

/-- Bucket width in seconds of an aggregation granularity. -/
def Aggregation.seconds : Aggregation → Int
  | .minute => 60
  | .hour => 3600
  | .day => 86400

/-- `func.date_trunc` on an epoch-second timestamp: floor to the bucket
boundary. -/
def date_trunc (a : Aggregation) (t : Int) : Int :=
  a.seconds * Int.ediv t a.seconds

/-- The (already enum-validated) optional query parameters of `GET /data`. -/
structure SensorQuery where
  server_ulid : Option String
  start_time : Option Int
  end_time : Option Int
  sensor_type : Option SensorType
  aggregation : Option Aggregation

/-- Lines 65-67 of `app/api/sensor_data.py` (and 108-110 for the aggregated
statement): join each reading with `servers` and keep those whose joined
server is owned by the caller. -/
def owned_join (db : DB) (user_id : String) : List DBSensorData :=
  db.sensor_data.filter (fun r =>
    db.servers.any (fun s => s.server_ulid == r.server_ulid && s.owner_id == user_id))

/-- Lines 70-77 (and 114-119): the optional device and inclusive time-range
filters, applied conjunctively. -/
def base_filtered (db : DB) (user_id : String) (q : SensorQuery) :
    List DBSensorData :=
  let rows := owned_join db user_id
  let rows := match q.server_ulid with
    | some u => rows.filter (fun r => r.server_ulid == u)
    | none => rows
  let rows := match q.start_time with
    | some t => rows.filter (fun r => decide (t ≤ r.timestamp))
    | none => rows
  match q.end_time with
  | some t => rows.filter (fun r => decide (r.timestamp ≤ t))
  | none => rows

/-- Lines 80-88 (and 120-128): when a `sensor_type` is given, additionally
require that column to be non-`NULL`. -/
def matching_rows (db : DB) (user_id : String) (q : SensorQuery) :
    List DBSensorData :=
  match q.sensor_type with
  | some st => (base_filtered db user_id q).filter (fun r => (st.get r).isSome)
  | none => base_filtered db user_id q

/-- SQL `avg`: `NULL` over no values, otherwise the arithmetic mean. -/
def sql_avg (vs : List ℚ) : Option ℚ :=
  if vs.isEmpty then none else some (vs.sum / (vs.length : ℚ))

/-- The non-`NULL` values of one channel among the rows falling in the bucket
starting at `b`. -/
def bucket_vals (rows : List DBSensorData) (a : Aggregation) (b : Int)
    (st : SensorType) : List ℚ :=
  (rows.filter (fun r => date_trunc a r.timestamp == b)).filterMap st.get

/-- Whether a channel's aggregate is computed, per the conditionals on lines
103-106 and 143-150: all four without a `sensor_type` filter, only the named
one with it. -/
def selected (q_st : Option SensorType) (c : SensorType) : Bool :=
  match q_st with
  | none => true
  | some c' => c == c'

/-- One response dictionary of the aggregated mode (lines 139-151): the
bucket timestamp plus one entry per computed channel.  The outer `Option` is
key presence in the dictionary, the inner one is SQL `NULL`. -/
structure AggRow where
  timestamp : Int
  temperature : Option (Option ℚ)
  humidity : Option (Option ℚ)
  voltage : Option (Option ℚ)
  current : Option (Option ℚ)
deriving DecidableEq

/-- Channel projection of an aggregated response dictionary. -/
def AggRow.channel (row : AggRow) : SensorType → Option (Option ℚ)
  | .temperature => row.temperature
  | .humidity => row.humidity
  | .voltage => row.voltage
  | .current => row.current

/-- The aggregated row for the bucket starting at `b`. -/
def agg_row_for (q_st : Option SensorType) (rows : List DBSensorData)
    (a : Aggregation) (b : Int) : AggRow where
  timestamp := b
  temperature :=
    if selected q_st .temperature then some (sql_avg (bucket_vals rows a b .temperature))
    else none
  humidity :=
    if selected q_st .humidity then some (sql_avg (bucket_vals rows a b .humidity))
    else none
  voltage :=
    if selected q_st .voltage then some (sql_avg (bucket_vals rows a b .voltage))
    else none
  current :=
    if selected q_st .current then some (sql_avg (bucket_vals rows a b .current))
    else none

/-- `GROUP BY` combined with `ORDER BY` on the truncated timestamp: the
distinct bucket values of the matching rows, in ascending order. -/
def agg_buckets (db : DB) (user_id : String) (q : SensorQuery)
    (a : Aggregation) : List Int :=
  List.insertionSort (· ≤ ·)
    ((matching_rows db user_id q).map (fun r => date_trunc a r.timestamp)).dedup

/-- Aggregated mode (lines 91-154): group the matching rows by truncated
timestamp — one group per distinct bucket value — order the groups by bucket
start ascending, and compute the selected averages per group. -/
def agg_rows (db : DB) (user_id : String) (q : SensorQuery) (a : Aggregation) :
    List AggRow :=
  (agg_buckets db user_id q a).map
    (agg_row_for q.sensor_type (matching_rows db user_id q) a)

/-- Response shape `SensorDataResponse` (`app/schemas/schemas.py`): all four
channels optional, defaulting to `NULL` when absent from the constructor
arguments. -/
structure SensorDataResponse where
  timestamp : Int
  temperature : Option ℚ
  humidity : Option ℚ
  voltage : Option ℚ
  current : Option ℚ
deriving DecidableEq

/-- Channel projection of a `SensorDataResponse`. -/
def SensorDataResponse.channel (resp : SensorDataResponse) :
    SensorType → Option ℚ
  | .temperature => resp.temperature
  | .humidity => resp.humidity
  | .voltage => resp.voltage
  | .current => resp.current

/-- Building `SensorDataResponse(**data_dict)` from an aggregated dictionary:
an absent key falls back to the model's `None` default. -/
def AggRow.toResponse (row : AggRow) : SensorDataResponse where
  timestamp := row.timestamp
  temperature := row.temperature.join
  humidity := row.humidity.join
  voltage := row.voltage.join
  current := row.current.join

/-- Lines 160-166: the unaggregated shaping with a `sensor_type` filter keeps
the timestamp and that channel only. -/
def shape_row (st : SensorType) (r : DBSensorData) : SensorDataResponse :=
  match st with
  | .temperature => ⟨r.timestamp, r.temperature, none, none, none⟩
  | .humidity => ⟨r.timestamp, none, r.humidity, none, none⟩
  | .voltage => ⟨r.timestamp, none, none, r.voltage, none⟩
  | .current => ⟨r.timestamp, none, none, none, r.current⟩

/-- Ordering of readings by timestamp, as `order_by(DBSensorData.timestamp)`. -/
def readingLE (r₁ r₂ : DBSensorData) : Prop :=
  r₁.timestamp ≤ r₂.timestamp

instance : DecidableRel readingLE := fun a b => Int.decLe a.timestamp b.timestamp

instance : IsTotal DBSensorData readingLE :=
  ⟨fun a b => Int.le_total a.timestamp b.timestamp⟩

instance : IsTrans DBSensorData readingLE :=
  ⟨fun _ _ _ h₁ h₂ => Int.le_trans h₁ h₂⟩

/-- `GET /data` (`app/api/sensor_data.py`, `get_sensor_data`), after the
enum validations: aggregated mode groups and averages; unaggregated mode
returns the matching readings ordered by timestamp ascending, shaped to the
requested channel when one is given. -/
def get_sensor_data (db : DB) (user_id : String) (q : SensorQuery) :
    List SensorDataResponse :=
  match q.aggregation with
  | some a => (agg_rows db user_id q a).map AggRow.toResponse
  | none =>
    match q.sensor_type with
    | some st =>
      (List.insertionSort readingLE (matching_rows db user_id q)).map (shape_row st)
    | none =>
      (List.insertionSort readingLE (matching_rows db user_id q)).map (fun r =>
        ⟨r.timestamp, r.temperature, r.humidity, r.voltage, r.current⟩)

/-! ## Concrete fixtures used by witnesses and counterexamples -/

/-- A stored user, inserted directly (its `id` differs from `strUlid`). -/
def aliceUser : DBUser := ⟨"U1", "alice", "a@x.com", none, "h", false⟩

/-- Store with one user and one server owned by that user. -/
def dbOneServer : DB := ⟨[aliceUser], [⟨"S1", "srv", "U1", some 0⟩], []⟩

/-- Store with one user and one server whose `last_seen` is 5 seconds old at
clock time 100. -/
def dbFresh : DB := ⟨[aliceUser], [⟨"S1", "srv", "U1", some 95⟩], []⟩

/-- Store with one user and no servers. -/
def dbUsersOnly : DB := ⟨[aliceUser], [], []⟩

/-! ## C2: single-device health rule -/

/-- Unfolding equation: a present `last_seen` is compared against the
10-second threshold. -/
theorem single_server_status_some (t now : Int) :
    single_server_status (some t) now =
      if t < now - 10 then "offline" else "online" := rfl

/-- Unfolding equation: a null `last_seen` reports `"offline"`. -/
theorem single_server_status_none (now : Int) :
    single_server_status none now = "offline" := rfl

/-- C2: whenever the single-device lookup finds a server, the endpoint
responds with that server's data, the status is `"online"` exactly when
`last_seen` is non-null and at most 10 seconds before the evaluation clock,
and any status other than `"online"` is `"offline"` (in particular a null
`last_seen` gives `"offline"`). -/
theorem C2_single_health_rule (db : DB) (uid devid : String) (now : Int)
    (sv : DBServer)
    (h : db.servers.find?
      (fun s => s.server_ulid == devid && s.owner_id == uid) = some sv) :
    get_server_health db uid devid now =
        .ok ⟨sv.server_ulid, sv.server_name, single_server_status sv.last_seen now⟩ ∧
      (single_server_status sv.last_seen now = "online" ↔
        ∃ t, sv.last_seen = some t ∧ now - t ≤ 10) ∧
      (single_server_status sv.last_seen now ≠ "online" →
        single_server_status sv.last_seen now = "offline") ∧
      single_server_status none now = "offline" := by
  refine ⟨by unfold get_server_health; rw [h], ?_, ?_, rfl⟩
  · cases hls : sv.last_seen with
    | none => simp [single_server_status_none]
    | some t =>
      rw [single_server_status_some]
      by_cases hlt : t < now - 10
      · rw [if_pos hlt]
        simp only [String.reduceEq, false_iff]
        rintro ⟨t', ht', hle⟩
        cases ht'
        omega
      · rw [if_neg hlt]
        simp only [true_iff]
        exact ⟨t, rfl, by omega⟩
  · cases sv.last_seen with
    | none => intro _; rfl
    | some t =>
      rw [single_server_status_some]
      by_cases hlt : t < now - 10
      · rw [if_pos hlt]; intro _; rfl
      · rw [if_neg hlt]; intro hc; exact absurd rfl hc

/-- C2 witness: the rule evaluated on a concrete fresh server. -/
theorem C2_witness :
    get_server_health dbFresh "U1" "S1" 100 =
        .ok ⟨"S1", "srv", single_server_status (some 95) 100⟩ ∧
      single_server_status (some 95) 100 = "online" :=
  have h := C2_single_health_rule dbFresh "U1" "S1" 100 ⟨"S1", "srv", "U1", some 95⟩ rfl
  ⟨h.1, h.2.1.mpr ⟨95, rfl, by omega⟩⟩

/-! ## C10: the two health endpoints share one status rule -/

/-- The two status computations coincide on every input. -/
theorem all_servers_status_eq_single (ls : Option Int) (now : Int) :
    all_servers_status ls now = single_server_status ls now := by
  cases ls with
  | none => rfl
  | some t =>
    show (if now - 10 ≤ t then "online" else "offline") =
      if t < now - 10 then "offline" else "online"
    by_cases hlt : t < now - 10
    · rw [if_pos hlt, if_neg (by omega)]
    · rw [if_neg hlt, if_pos (by omega)]

/-- C10: for a store whose server identifiers are pairwise distinct (the
primary key), the status the all-devices endpoint lists for a device is the
status the single-device endpoint returns for it at the same clock time, the
two derivations agree on every liveness value, and at the boundary where
`last_seen` is exactly 10 seconds old both report `"online"`. -/
theorem C10_health_endpoints_agree (db : DB) (uid devid : String) (now : Int)
    (resp : ServerResponse)
    (hnodup : db.servers.Pairwise (fun a b => a.server_ulid ≠ b.server_ulid))
    (hok : get_server_health db uid devid now = .ok resp) :
    (∀ ls : Option Int, all_servers_status ls now = single_server_status ls now) ∧
      (∀ e ∈ get_all_servers_health db uid now,
        e.server_ulid = devid → e.status = resp.status) ∧
      all_servers_status (some (now - 10)) now = "online" ∧
      single_server_status (some (now - 10)) now = "online" := by
  refine ⟨fun ls => all_servers_status_eq_single ls now, ?_, ?_, ?_⟩
  · intro e he heq
    unfold get_server_health at hok
    cases hfind : db.servers.find?
        (fun s => s.server_ulid == devid && s.owner_id == uid) with
    | none => rw [hfind] at hok; exact absurd hok (by simp)
    | some sv =>
      rw [hfind] at hok
      have hresp : resp =
          ⟨sv.server_ulid, sv.server_name, single_server_status sv.last_seen now⟩ := by
        cases hok; rfl
      have hsv_mem : sv ∈ db.servers := List.mem_of_find?_eq_some hfind
      have hsv_pred := List.find?_some hfind
      rw [Bool.and_eq_true, beq_iff_eq, beq_iff_eq] at hsv_pred
      unfold get_all_servers_health at he
      rw [List.mem_map] at he
      obtain ⟨s', hs'_mem, hs'_eq⟩ := he
      rw [List.mem_filter, beq_iff_eq] at hs'_mem
      have hulid : s'.server_ulid = devid := by
        rw [← hs'_eq] at heq; exact heq
      have hsym : Symmetric (fun (a b : DBServer) => a.server_ulid ≠ b.server_ulid) :=
        fun _ _ h h2 => h h2.symm
      have hsame : s' = sv := by
        by_contra hne
        exact (hnodup.forall hsym hs'_mem.1 hsv_mem hne)
          (hulid.trans hsv_pred.1.symm)
      rw [← hs'_eq, hresp, hsame]
      exact all_servers_status_eq_single sv.last_seen now
  · rw [all_servers_status_eq_single]
    rw [single_server_status_some, if_neg (by omega)]
  · rw [single_server_status_some, if_neg (by omega)]

/-- C10 witness: the agreement evaluated on a concrete store with one
server that is exactly at the freshness boundary. -/
theorem C10_witness :
    (∀ e ∈ get_all_servers_health dbFresh "U1" 100,
        e.server_ulid = "S1" → e.status = "online") ∧
      all_servers_status (some (100 - 10)) 100 = "online" := by
  have h := C10_health_endpoints_agree dbFresh "U1" "S1" 100 ⟨"S1", "srv", "online"⟩
    (by simp [dbFresh]) rfl
  exact ⟨h.2.1, h.2.2.1⟩

/-! ## C7: ingestion to an unknown device -/

/-- C7: when no stored server carries the posted identifier, `POST /data`
fails with the 404 and the store — in particular every server's `last_seen`
— is exactly as before. -/
theorem C7_unknown_device (db : DB) (data : SensorDataPost) (now : Int)
    (h : db.servers.find? (fun s => s.server_ulid == data.server_ulid) = none) :
    post_sensor_data db data now = (db, .error (.http 404 "Server not found")) ∧
      ((post_sensor_data db data now).1).servers.map DBServer.last_seen =
        db.servers.map DBServer.last_seen := by
  have hmain : post_sensor_data db data now =
      (db, .error (.http 404 "Server not found")) := by
    unfold post_sensor_data; rw [h]
  exact ⟨hmain, by rw [hmain]⟩

/-- C7 witness: a concrete post naming an identifier that no server has. -/
theorem C7_witness :
    post_sensor_data dbOneServer ⟨"NONEXISTENT", 5, some 25, none, none, none⟩ 9 =
      (dbOneServer, .error (.http 404 "Server not found")) :=
  (C7_unknown_device dbOneServer ⟨"NONEXISTENT", 5, some 25, none, none, none⟩ 9 rfl).1

/-! ## C5: device registration identifiers -/

/-- C5: two successive registrations do not both succeed with distinct
identifiers: `str(ulid)` is one fixed string, so the first registration
succeeds carrying `strUlid` as its identifier and the second violates the
`servers` primary key, surfacing as a server-side integrity error. -/
theorem C5_duplicate_identifier :
    (create_server dbUsersOnly aliceUser "Server A" 0).2 =
        .ok ⟨strUlid, "Server A", "online"⟩ ∧
      (create_server ((create_server dbUsersOnly aliceUser "Server A" 0).1)
          aliceUser "Server B" 1).2 = .error (.integrity "servers_pkey") ∧
      exceptIsClientError
        (create_server ((create_server dbUsersOnly aliceUser "Server A" 0).1)
          aliceUser "Server B" 1).2 = false :=
  ⟨rfl, rfl, rfl⟩

/-! ## C6: reposting a reading -/

/-- C6: posting the same valid payload twice to an existing device does not
yield two stored rows: both inserts use the constant primary key
`str(ulid)`, so the second commit fails with an integrity error and the
store still holds a single reading. -/
theorem C6_second_post_fails :
    (post_sensor_data dbOneServer ⟨"S1", 50, some 25, some 60, none, none⟩ 100).2 =
        .ok "Data recorded successfully" ∧
      ((post_sensor_data dbOneServer ⟨"S1", 50, some 25, some 60, none, none⟩ 100).1).sensor_data.length = 1 ∧
      (post_sensor_data
          ((post_sensor_data dbOneServer ⟨"S1", 50, some 25, some 60, none, none⟩ 100).1)
          ⟨"S1", 50, some 25, some 60, none, none⟩ 101).2 =
        .error (.integrity "sensor_data_pkey") ∧
      (post_sensor_data
          ((post_sensor_data dbOneServer ⟨"S1", 50, some 25, some 60, none, none⟩ 100).1)
          ⟨"S1", 50, some 25, some 60, none, none⟩ 101).1.sensor_data.length = 1 :=
  ⟨rfl, rfl, rfl, rfl⟩

/-! ## C3: payload validation -/

/-- A payload whose only non-null channel is an in-range humidity, with a
parseable timestamp. -/
def humidityOnlyPayload : SensorDataIn :=
  ⟨"01HQNJ4RT8Z6MSPMTC83WTPQTA", some 1735689600, none, some 50, none, none⟩

/-- C3: the validator rejects a payload that has a parseable timestamp, an
in-range humidity and a non-null channel — contrary to the documented rule —
because the cross-field check for `temperature` runs before any channel has
been validated into `info.data`. -/
theorem C3_humidity_only_rejected :
    sensor_data_validation_errors humidityOnlyPayload =
        ["At least one sensor value must be provided"] ∧
      humidityOnlyPayload.timestamp ≠ none ∧
      humidity_out_of_range humidityOnlyPayload.humidity = false ∧
      humidityOnlyPayload.humidity ≠ none :=
  ⟨rfl, by decide, rfl, by decide⟩

/-! ## C9: duplicate email at registration -/

/-- Store holding one user, for the registration scenarios. -/
def dbRegistered : DB := ⟨[aliceUser], [], []⟩

/-- Registration request reusing the stored email under a fresh username. -/
def bobRequest : UserCreate := ⟨"bob", "a@x.com", none, "pw"⟩

/-- C9 counterexample: registering a fresh username with an already-stored
email is not rejected as a client error naming the field — the handler only
checks the username, so the insert violates the unique email constraint and
surfaces as a server-side integrity error. -/
theorem C9_counterexample :
    (register_user dbRegistered bobRequest (fun p => p)).2 =
        .error (.integrity "users_email_key") ∧
      exceptIsClientError (register_user dbRegistered bobRequest (fun p => p)).2 =
        false :=
  ⟨rfl, rfl⟩

/-- C9 amended: a duplicate username is rejected with the 400 client error;
a fresh username with a duplicate email (when the constant `str(ulid)` key is
not itself already taken) fails with a database integrity error, which is not
a client error. -/
theorem C9_amended_register (db : DB) (u : UserCreate) (hash : String → String) :
    ((∃ x ∈ db.users, x.username = u.username) →
      (register_user db u hash).2 = .error (.http 400 "Username already registered")) ∧
    ((¬ ∃ x ∈ db.users, x.username = u.username) →
     (¬ ∃ x ∈ db.users, x.id = strUlid) →
     (∃ x ∈ db.users, x.email = u.email) →
      (register_user db u hash).2 = .error (.integrity "users_email_key") ∧
        exceptIsClientError (register_user db u hash).2 = false) := by
  constructor
  · rintro ⟨x, hx, hxu⟩
    unfold register_user
    cases hf : get_user db u.username with
    | none =>
      unfold get_user at hf
      rw [List.find?_eq_none] at hf
      exact absurd (by rw [beq_iff_eq]; exact hxu) (hf x hx)
    | some _ => rfl
  · intro h1 h2 h3
    have hfind : get_user db u.username = none := by
      unfold get_user
      rw [List.find?_eq_none]
      intro x hx hbeq
      rw [beq_iff_eq] at hbeq
      exact h1 ⟨x, hx, hbeq⟩
    have hid : db.users.any (fun x => x.id == strUlid) = false := by
      rw [List.any_eq_false]
      intro x hx hbeq
      rw [beq_iff_eq] at hbeq
      exact h2 ⟨x, hx, hbeq⟩
    have hname : db.users.any (fun x => x.username == u.username) = false := by
      rw [List.any_eq_false]
      intro x hx hbeq
      rw [beq_iff_eq] at hbeq
      exact h1 ⟨x, hx, hbeq⟩
    have hmail : db.users.any (fun x => x.email == u.email) = true := by
      rw [List.any_eq_true]
      obtain ⟨x, hx, hxe⟩ := h3
      exact ⟨x, hx, by rw [beq_iff_eq]; exact hxe⟩
    simp [register_user, hfind, hid, hname, hmail, exceptIsClientError,
      ApiError.isClientError]

/-- C9 witness: the amended rule applied to the concrete duplicate-email
scenario. -/
theorem C9_witness :
    (register_user dbRegistered bobRequest (fun p => p)).2 =
        .error (.integrity "users_email_key") ∧
      exceptIsClientError (register_user dbRegistered bobRequest (fun p => p)).2 =
        false :=
  (C9_amended_register dbRegistered bobRequest (fun p => p)).2
    (by decide) (by decide) (by decide)

/-! ## Structure of the query pipeline -/

/-- Every row surviving the optional filters came through the ownership
join. -/
theorem mem_owned_join_of_mem_base_filtered {db : DB} {user_id : String}
    {q : SensorQuery} {r : DBSensorData} (h : r ∈ base_filtered db user_id q) :
    r ∈ owned_join db user_id := by
  rcases q with ⟨su, st, et, sty, agg⟩
  dsimp [base_filtered] at h
  cases su <;> cases st <;> cases et <;> simp_all [List.mem_filter]

/-- Every row matched by the full filter stack survived the optional
filters. -/
theorem mem_base_filtered_of_mem_matching {db : DB} {user_id : String}
    {q : SensorQuery} {r : DBSensorData} (h : r ∈ matching_rows db user_id q) :
    r ∈ base_filtered db user_id q := by
  unfold matching_rows at h
  cases hst : q.sensor_type with
  | none => rwa [hst] at h
  | some st => rw [hst] at h; exact (List.mem_filter.mp h).1

/-- A row of the ownership join belongs to a server owned by the caller. -/
theorem owned_of_mem_owned_join {db : DB} {user_id : String} {r : DBSensorData}
    (h : r ∈ owned_join db user_id) :
    ∃ s ∈ db.servers, s.server_ulid = r.server_ulid ∧ s.owner_id = user_id := by
  unfold owned_join at h
  rw [List.mem_filter] at h
  obtain ⟨-, hany⟩ := h
  rw [List.any_eq_true] at hany
  obtain ⟨s, hs, hpred⟩ := hany
  rw [Bool.and_eq_true, beq_iff_eq, beq_iff_eq] at hpred
  exact ⟨s, hs, hpred.1, hpred.2⟩

/-- With a channel filter, the matched rows are the base-filtered rows whose
named column is non-null. -/
theorem matching_rows_of_sensor_type {db : DB} {user_id : String}
    {q : SensorQuery} {st : SensorType} (h : q.sensor_type = some st) :
    matching_rows db user_id q =
      (base_filtered db user_id q).filter (fun r => (st.get r).isSome) := by
  unfold matching_rows; rw [h]

/-- Unfolding equation of `GET /data` in aggregated mode. -/
theorem get_sensor_data_agg {db : DB} {user_id : String} {q : SensorQuery}
    {a : Aggregation} (h : q.aggregation = some a) :
    get_sensor_data db user_id q = (agg_rows db user_id q a).map AggRow.toResponse := by
  unfold get_sensor_data; rw [h]

/-- Unfolding equation of `GET /data` in unaggregated mode with a channel
filter. -/
theorem get_sensor_data_unagg_shaped {db : DB} {user_id : String}
    {q : SensorQuery} {st : SensorType} (ha : q.aggregation = none)
    (hst : q.sensor_type = some st) :
    get_sensor_data db user_id q =
      (List.insertionSort readingLE (matching_rows db user_id q)).map
        (shape_row st) := by
  unfold get_sensor_data; rw [ha, hst]

/-- Unfolding equation of `GET /data` in unaggregated mode without a channel
filter. -/
theorem get_sensor_data_unagg_plain {db : DB} {user_id : String}
    {q : SensorQuery} (ha : q.aggregation = none) (hst : q.sensor_type = none) :
    get_sensor_data db user_id q =
      (List.insertionSort readingLE (matching_rows db user_id q)).map (fun r =>
        ⟨r.timestamp, r.temperature, r.humidity, r.voltage, r.current⟩) := by
  unfold get_sensor_data; rw [ha, hst]

/-- A value is a bucket start exactly when some matching row truncates to
it. -/
theorem mem_agg_buckets {db : DB} {user_id : String} {q : SensorQuery}
    {a : Aggregation} {b : Int} :
    b ∈ agg_buckets db user_id q a ↔
      ∃ r ∈ matching_rows db user_id q, date_trunc a r.timestamp = b := by
  unfold agg_buckets
  rw [(List.perm_insertionSort _ _).mem_iff, List.mem_dedup, List.mem_map]

/-! ## C1: ownership scoping -/

/-- C1: whatever combination of optional filters is supplied, every row the
query endpoint works from belongs to a server owned by the caller, and every
returned row or bucket is derived from such a matching row (its timestamp is
the row's timestamp, or its truncation in aggregated mode). -/
theorem C1_ownership_scoping (db : DB) (user_id : String) (q : SensorQuery) :
    (∀ r ∈ matching_rows db user_id q,
      ∃ s ∈ db.servers, s.server_ulid = r.server_ulid ∧ s.owner_id = user_id) ∧
    (∀ resp ∈ get_sensor_data db user_id q, ∃ r ∈ matching_rows db user_id q,
      resp.timestamp = match q.aggregation with
        | none => r.timestamp
        | some a => date_trunc a r.timestamp) := by
  constructor
  · intro r hr
    exact owned_of_mem_owned_join
      (mem_owned_join_of_mem_base_filtered (mem_base_filtered_of_mem_matching hr))
  · intro resp hresp
    cases ha : q.aggregation with
    | some a =>
      rw [get_sensor_data_agg ha, List.mem_map] at hresp
      obtain ⟨row, hrow, hrow_eq⟩ := hresp
      unfold agg_rows at hrow
      rw [List.mem_map] at hrow
      obtain ⟨b, hb, hb_eq⟩ := hrow
      rw [mem_agg_buckets] at hb
      obtain ⟨r, hr, hr_eq⟩ := hb
      refine ⟨r, hr, ?_⟩
      rw [← hrow_eq, ← hb_eq]
      show b = date_trunc a r.timestamp
      exact hr_eq.symm
    | none =>
      cases hst : q.sensor_type with
      | some st =>
        rw [get_sensor_data_unagg_shaped ha hst, List.mem_map] at hresp
        obtain ⟨r, hr, hr_eq⟩ := hresp
        refine ⟨r, (List.perm_insertionSort _ _).mem_iff.mp hr, ?_⟩
        rw [← hr_eq]
        cases st <;> rfl
      | none =>
        rw [get_sensor_data_unagg_plain ha hst, List.mem_map] at hresp
        obtain ⟨r, hr, hr_eq⟩ := hresp
        refine ⟨r, (List.perm_insertionSort _ _).mem_iff.mp hr, ?_⟩
        rw [← hr_eq]

/-- A second identity, owning its own server. -/
def malloryUser : DBUser := ⟨"U2", "mallory", "m@x.com", none, "h", false⟩

/-- Reading stored for the first identity's server. -/
def aliceReading : DBSensorData := ⟨"R1", "S1", 30, some 20, none, none, none⟩

/-- Reading stored for the second identity's server. -/
def malloryReading : DBSensorData := ⟨"R2", "S2", 40, some 99, none, none, none⟩

/-- Store with two identities, a server each, and a reading each. -/
def dbTwoOwners : DB :=
  ⟨[aliceUser, malloryUser],
   [⟨"S1", "srv", "U1", some 0⟩, ⟨"S2", "srv2", "U2", some 0⟩],
   [aliceReading, malloryReading]⟩

/-- The query with every optional filter absent. -/
def emptyQuery : SensorQuery := ⟨none, none, none, none, none⟩

/-- The query filtering on the temperature channel, unaggregated. -/
def temperatureQuery : SensorQuery := ⟨none, none, none, some .temperature, none⟩

/-- C1 witness: the scoping applied to a concrete two-owner store — the
caller's matched reading belongs to a server the caller owns. -/
theorem C1_witness :
    ∃ s ∈ dbTwoOwners.servers,
      s.server_ulid = aliceReading.server_ulid ∧ s.owner_id = "U1" :=
  (C1_ownership_scoping dbTwoOwners "U1" emptyQuery).1 aliceReading (by decide)

/-! ## C8: unaggregated mode -/

/-- Shaping to one channel keeps the reading's timestamp. -/
theorem shape_row_timestamp (st : SensorType) (r : DBSensorData) :
    (shape_row st r).timestamp = r.timestamp := by
  cases st <;> rfl

/-- Shaping to one channel carries that channel's value. -/
theorem shape_row_channel_self (st : SensorType) (r : DBSensorData) :
    (shape_row st r).channel st = st.get r := by
  cases st <;> rfl

/-- Shaping to one channel nulls every other channel. -/
theorem shape_row_channel_ne (st c : SensorType) (r : DBSensorData)
    (h : c ≠ st) : (shape_row st r).channel c = none := by
  cases st <;> cases c <;> first | rfl | exact absurd rfl h

/-- C8: without an aggregation parameter the endpoint's rows are ordered by
timestamp ascending, and with a channel filter the responses are exactly the
shapings of the base-matched readings whose named column is non-null — a
reading with a null value there contributes no row — each response carrying
the timestamp and that channel with the other three channels null. -/
theorem C8_unaggregated_mode (db : DB) (user_id : String) (q : SensorQuery)
    (ha : q.aggregation = none) :
    ((get_sensor_data db user_id q).map SensorDataResponse.timestamp).Pairwise (· ≤ ·) ∧
    (∀ st : SensorType, q.sensor_type = some st →
      (∀ resp ∈ get_sensor_data db user_id q,
        ∃ r ∈ base_filtered db user_id q, st.get r ≠ none ∧ resp = shape_row st r) ∧
      (∀ r ∈ base_filtered db user_id q, st.get r ≠ none →
        shape_row st r ∈ get_sensor_data db user_id q) ∧
      (∀ resp ∈ get_sensor_data db user_id q, ∀ c : SensorType, c ≠ st →
        resp.channel c = none) ∧
      (∀ resp ∈ get_sensor_data db user_id q,
        ∃ r ∈ matching_rows db user_id q,
          resp.timestamp = r.timestamp ∧ resp.channel st = st.get r)) := by
  constructor
  · have hsorted : List.Pairwise readingLE
        (List.insertionSort readingLE (matching_rows db user_id q)) :=
      List.sorted_insertionSort readingLE (matching_rows db user_id q)
    cases hst : q.sensor_type with
    | some st =>
      rw [get_sensor_data_unagg_shaped ha hst, List.map_map]
      rw [List.pairwise_map]
      refine hsorted.imp ?_
      intro r₁ r₂ h
      simpa [Function.comp, shape_row_timestamp] using h
    | none =>
      rw [get_sensor_data_unagg_plain ha hst, List.map_map]
      rw [List.pairwise_map]
      exact hsorted.imp (fun h => h)
  · intro st hst
    have hmatch := @matching_rows_of_sensor_type db user_id q st hst
    have hperm := List.perm_insertionSort readingLE (matching_rows db user_id q)
    refine ⟨?_, ?_, ?_, ?_⟩
    · intro resp hresp
      rw [get_sensor_data_unagg_shaped ha hst, List.mem_map] at hresp
      obtain ⟨r, hr, hr_eq⟩ := hresp
      have hr_match : r ∈ matching_rows db user_id q := hperm.mem_iff.mp hr
      rw [hmatch, List.mem_filter] at hr_match
      refine ⟨r, hr_match.1, ?_, hr_eq.symm⟩
      rw [Option.ne_none_iff_isSome]
      exact hr_match.2
    · intro r hr hnn
      rw [get_sensor_data_unagg_shaped ha hst]
      refine List.mem_map_of_mem (shape_row st) ?_
      rw [hperm.mem_iff, hmatch, List.mem_filter]
      exact ⟨hr, by rwa [← Option.ne_none_iff_isSome]⟩
    · intro resp hresp c hc
      rw [get_sensor_data_unagg_shaped ha hst, List.mem_map] at hresp
      obtain ⟨r, -, hr_eq⟩ := hresp
      rw [← hr_eq]
      exact shape_row_channel_ne st c r hc
    · intro resp hresp
      rw [get_sensor_data_unagg_shaped ha hst, List.mem_map] at hresp
      obtain ⟨r, hr, hr_eq⟩ := hresp
      exact ⟨r, hperm.mem_iff.mp hr,
        by rw [← hr_eq, shape_row_timestamp],
        by rw [← hr_eq, shape_row_channel_self]⟩

/-- C8 witness: on the concrete two-owner store with a temperature filter,
the shaping of the caller's reading appears in the response. -/
theorem C8_witness :
    shape_row .temperature aliceReading ∈
      get_sensor_data dbTwoOwners "U1" temperatureQuery :=
  ((C8_unaggregated_mode dbTwoOwners "U1" temperatureQuery rfl).2
      .temperature rfl).2.1 aliceReading (by decide) (by decide)

/-! ## C4: aggregated mode -/

/-- The average of a non-empty value list is an actual value, never SQL
`NULL`. -/
theorem sql_avg_of_mem {vs : List ℚ} {v : ℚ} (h : v ∈ vs) :
    ∃ w, sql_avg vs = some w := by
  cases vs with
  | nil => cases h
  | cons x xs => exact ⟨_, rfl⟩

/-- The bucket-start timestamps of the aggregated rows are the bucket
list itself. -/
theorem agg_rows_map_timestamp (db : DB) (user_id : String) (q : SensorQuery)
    (a : Aggregation) :
    (agg_rows db user_id q a).map AggRow.timestamp = agg_buckets db user_id q a := by
  unfold agg_rows
  rw [List.map_map]
  have hfun : AggRow.timestamp ∘ agg_row_for q.sensor_type (matching_rows db user_id q) a =
      fun b => b := by
    funext b; rfl
  rw [hfun, List.map_id']

/-- C4: in aggregated mode the bucket starts are strictly increasing (one
row per non-empty bucket, ascending); a value is a row's bucket start exactly
when some matching reading truncates to it; each row carries, for every
channel selected by the filter, the SQL average — arithmetic mean of the
non-null values — of that channel over its bucket and no entry at all for an
unselected channel; and when a channel filter is present the computed average
is always an actual value. -/
theorem C4_aggregated_mode (db : DB) (user_id : String) (q : SensorQuery)
    (a : Aggregation) :
    ((agg_rows db user_id q a).map AggRow.timestamp).Pairwise (· < ·) ∧
    (∀ b : Int, (∃ row ∈ agg_rows db user_id q a, row.timestamp = b) ↔
      ∃ r ∈ matching_rows db user_id q, date_trunc a r.timestamp = b) ∧
    (∀ row ∈ agg_rows db user_id q a, ∀ c : SensorType,
      row.channel c =
        if selected q.sensor_type c then
          some (sql_avg (bucket_vals (matching_rows db user_id q) a row.timestamp c))
        else none) ∧
    (∀ row ∈ agg_rows db user_id q a, ∀ c : SensorType, q.sensor_type = some c →
      ∃ v : ℚ, row.channel c = some (some v)) := by
  refine ⟨?_, ?_, ?_, ?_⟩
  · rw [agg_rows_map_timestamp]
    have hsorted : (agg_buckets db user_id q a).Pairwise (· ≤ ·) :=
      List.sorted_insertionSort _ _
    have hnd : (agg_buckets db user_id q a).Nodup :=
      (List.perm_insertionSort _ _).nodup_iff.mpr
        (List.nodup_dedup ((matching_rows db user_id q).map
          (fun r => date_trunc a r.timestamp)))
    exact (hsorted.and hnd).imp (fun h => lt_of_le_of_ne h.1 h.2)
  · intro b
    constructor
    · rintro ⟨row, hrow, hts⟩
      unfold agg_rows at hrow
      rw [List.mem_map] at hrow
      obtain ⟨b', hb', hb'_eq⟩ := hrow
      have : b' = b := by rw [← hts, ← hb'_eq]; rfl
      rw [← this]
      exact mem_agg_buckets.mp hb'
    · intro hex
      refine ⟨agg_row_for q.sensor_type (matching_rows db user_id q) a b, ?_, rfl⟩
      unfold agg_rows
      exact List.mem_map_of_mem _ (mem_agg_buckets.mpr hex)
  · intro row hrow c
    unfold agg_rows at hrow
    rw [List.mem_map] at hrow
    obtain ⟨b, hb, hb_eq⟩ := hrow
    rw [← hb_eq]
    cases c <;> rfl
  · intro row hrow c hst
    unfold agg_rows at hrow
    rw [List.mem_map] at hrow
    obtain ⟨b, hb, hb_eq⟩ := hrow
    rw [mem_agg_buckets] at hb
    obtain ⟨r, hr, hr_eq⟩ := hb
    have hr_base := hr
    rw [matching_rows_of_sensor_type hst, List.mem_filter] at hr_base
    obtain ⟨v, hv⟩ := Option.isSome_iff_exists.mp hr_base.2
    have hv_mem : v ∈ bucket_vals (matching_rows db user_id q) a b c := by
      unfold bucket_vals
      rw [List.mem_filterMap]
      refine ⟨r, ?_, hv⟩
      rw [List.mem_filter]
      exact ⟨hr, by rw [beq_iff_eq]; exact hr_eq⟩
    obtain ⟨w, hw⟩ := sql_avg_of_mem hv_mem
    refine ⟨w, ?_⟩
    rw [← hb_eq]
    have hsel : selected q.sensor_type c = true := by
      rw [hst]; unfold selected; rw [beq_iff_eq]
    have hch : (agg_row_for q.sensor_type (matching_rows db user_id q) a b).channel c =
        if selected q.sensor_type c then
          some (sql_avg (bucket_vals (matching_rows db user_id q) a b c))
        else none := by
      cases c <;> rfl
    rw [hch, if_pos hsel, hw]

/-- C4 witness: on the concrete two-owner store with minute aggregation, the
caller's reading (timestamp 30) yields the bucket starting at 0. -/
theorem C4_witness :
    ∃ row ∈ agg_rows dbTwoOwners "U1" emptyQuery Aggregation.minute,
      row.timestamp = 0 :=
  ((C4_aggregated_mode dbTwoOwners "U1" emptyQuery .minute).2.1 0).mpr
    ⟨aliceReading, by decide, by decide⟩
